import Mathlib

/-! # Verification of the A3R_Readout helper library

Definitions are translated from `helper_funcs/helpers.py` and
`helper_funcs/experiments.py`.  Python floats are modelled as exact
rationals, Python ints as `Int`/`Nat`, and raised exceptions as explicit
error values (`Option`/`Except`). -/

/-- Python `int(x)` applied to a real value: truncation toward zero. -/
def pytrunc (x : ℚ) : ℤ :=
  if 0 ≤ x then ⌊x⌋ else ⌈x⌉

/-- `helpers.get_closest_multiple_of(value, base_number)`:
`int(value + base_number / 2) - (int(value + base_number / 2) % base_number)`.
Python `%` between ints with a positive modulus agrees with `Int.emod`. -/
def get_closest_multiple_of (value : ℚ) (base_number : ℤ) : ℤ :=
  pytrunc (value + (base_number : ℚ) / 2) -
    pytrunc (value + (base_number : ℚ) / 2) % base_number

/-- `helpers.get_closest_multiple_of_16(num)`. -/
def get_closest_multiple_of_16 (num : ℚ) : ℤ :=
  get_closest_multiple_of num 16

/-- The module-level default sample period of `helpers.get_dt_from`:
`1 / 4.5 * 1.0e-9` seconds. -/
def default_dt : ℚ :=
  1 / (9 / 2) * (1 / 1000000000)

/-- `helpers.get_dt_from(sec, dt) = get_closest_multiple_of(sec / dt, 16)`.
The Python default for `dt` is `default_dt`; the default is made explicit at
each call site here. -/
def get_dt_from (sec dt : ℚ) : ℤ :=
  get_closest_multiple_of (sec / dt) 16

/-- One pulse instruction operand as inspected by `helpers.acquisition_checker`
(column 1 of `schedule.instructions`).  Durations are sample counts. -/
inductive Op where
  | play (duration : ℕ)
  | delay (duration : ℕ)
  | acquire (duration : ℕ)
  | shiftFrequency
  deriving DecidableEq, Repr

/-- A pulse schedule, reduced to its instruction operands in program order. -/
abbrev Schedule := List Op

/-- `acq_duration_list` of `helpers.acquisition_checker`: the durations of all
`pulse.Acquire` operands, in traversal order across the whole job. -/
def acqDurations (job : List Schedule) : List ℕ :=
  job.flatMap fun s => s.filterMap fun op =>
    match op with
    | .acquire d => some d
    | _ => none

/-- `all_duration_list` of `helpers.acquisition_checker`: the source collects
ONLY the durations of `pulse.Play` operands (helpers.py line 31); the
durations of `pulse.Delay` instructions are never gathered. -/
def playDurations (job : List Schedule) : List ℕ :=
  job.flatMap fun s => s.filterMap fun op =>
    match op with
    | .play d => some d
    | _ => none

/-- The five distinct `ValueError` raise sites of `helpers.acquisition_checker`
plus the numpy `IndexError` that `acq_duration_array[0]` raises on an empty
batch. -/
inductive CheckError where
  | playNotMult16
  | playZero
  | acqCountMismatch
  | acqNotIdentical
  | acqNotMult16
  | indexError
  deriving DecidableEq, Repr

/-- `helpers.acquisition_checker(job)` (lines 22-56): `none` models a silent
pass, `some e` models the first `ValueError` raised.  The count check at line
45 compares the TOTAL number of acquisition instructions with the number of
schedules in the job. -/
def acquisition_checker (job : List Schedule) : Option CheckError :=
  let acq := acqDurations job
  let alldur := playDurations job
  if !(alldur.all fun d => d % 16 == 0) then some .playNotMult16
  else if !(alldur.all fun d => d != 0) then some .playZero
  else if acq.length ≠ job.length then some .acqCountMismatch
  else
    match acq with
    | [] => some .indexError
    | d0 :: rest =>
      if !((d0 :: rest).all fun d => d == d0) then some .acqNotIdentical
      else if d0 % 16 ≠ 0 then some .acqNotMult16
      else none

/-- Python exceptions raised by the experiment builders. -/
inductive RunError where
  | configError
  | configErrorModes (supported : List String)
  | typeError
  | indexError
  | nameError
  | unboundLocalError
  deriving DecidableEq, Repr

/-- `np.linspace(start, stop, num)` over exact rationals: `num` evenly spaced
values from `start` to `stop` inclusive. -/
def np_linspace (start stop : ℚ) (num : ℕ) : List ℚ :=
  if num = 0 then []
  else if num = 1 then [start]
  else (List.range num).map fun i => start + i * (stop - start) / ((num : ℚ) - 1)

/-- Python `round(x, 3)` on exact rationals: banker's rounding (ties to the
even integer) of `x * 1000`, divided by 1000. -/
def pyround3 (x : ℚ) : ℚ :=
  let y := x * 1000
  let n : ℤ :=
    if y - ⌊y⌋ = 1 / 2 then (if ⌊y⌋ % 2 = 0 then ⌊y⌋ else ⌊y⌋ + 1) else round y
  (n : ℚ) / 1000

/-- One frequency-spectroscopy schedule of `helpers.rr_freq_spec`: a
ground-state (`specG`) or excited-state (`specE`) sequence built for one sweep
value `freq_shift`. -/
inductive FreqSched where
  | specG (freq_shift : ℚ)
  | specE (freq_shift : ℚ)
  deriving DecidableEq, Repr

/-- The `details` dictionary of `helpers.rr_freq_spec`. -/
structure FreqSpecDetails where
  total_experiment_size : ℕ
  freq_step_size_MHz : ℚ
  freq_span_MHz : ℚ
  deriving DecidableEq, Repr

/-- The `details` dictionary construction, which the source performs INSIDE
the sweep loop of `helpers.rr_freq_spec` (lines 142-150).  Indexing
`freq_linspace[1]` raises `IndexError` when the sweep has fewer than two
points; `freq_linspace[-1]` is the last element. -/
def rr_details (lin : List ℚ) (g e : List FreqSched) : Except RunError FreqSpecDetails :=
  match lin with
  | a :: b :: rest =>
    .ok { total_experiment_size := g.length + e.length
          freq_step_size_MHz := pyround3 ((b - a) / 1000000)
          freq_span_MHz := pyround3 (((a :: b :: rest).getLastD 0 - a) / 1000000) }
  | _ => .error .indexError

/-- The sweep loop of `helpers.rr_freq_spec`: per sweep value it appends one
ground and one excited schedule and then rebuilds `details`.  After the loop
the function returns `(g, e, details)`; `details` is an unbound name
(`NameError`) when the loop never ran. -/
def rr_freq_spec_go (lin : List ℚ) :
    List ℚ → List FreqSched → List FreqSched → Option FreqSpecDetails →
    Except RunError (List FreqSched × List FreqSched × FreqSpecDetails)
  | [], _, _, none => .error .nameError
  | [], g, e, some d => .ok (g, e, d)
  | f :: rest, g, e, _ =>
    match rr_details lin (g ++ [FreqSched.specG f]) (e ++ [FreqSched.specE f]) with
    | .error err => .error err
    | .ok d2 =>
      rr_freq_spec_go lin rest (g ++ [FreqSched.specG f]) (e ++ [FreqSched.specE f]) (some d2)

/-- `helpers.rr_freq_spec` (lines 93-152).  Validation follows the source:
`construct_linspace = freq_span == None and num_experiments == None`,
`valid_setting = np.logical_xor(freq_linspace == None, construct_linspace)`
(the declared argument types are scalars, so `== None` is a plain boolean
test), and `not valid_setting` raises before anything is built.  When the
span and count are supplied the sweep is
`np.linspace(-0.5 * freq_span, 0.5 * freq_span, num_experiments)`; supplying
only one of the pair reaches `np.linspace` with a `None` argument, a
`TypeError`. -/
def rr_freq_spec (freq_span : Option ℚ) (num_experiments : Option ℕ)
    (freq_linspace : Option (List ℚ)) :
    Except RunError (List FreqSched × List FreqSched × FreqSpecDetails) :=
  let construct_linspace := freq_span.isNone && num_experiments.isNone
  let valid_setting := Bool.xor freq_linspace.isNone construct_linspace
  if !valid_setting then .error .configError
  else
    match construct_linspace, freq_span, num_experiments with
    | false, some sp, some n =>
      let lin := np_linspace (-(1 / 2) * sp) (1 / 2 * sp) n
      rr_freq_spec_go lin lin [] [] none
    | false, _, _ => .error .typeError
    | true, _, _ =>
      let lin := freq_linspace.getD []
      rr_freq_spec_go lin lin [] [] none

/-- The sweep-relevant state stored by `experiments.RRFreqSpec.__init__`. -/
structure RRFreqSpecState where
  freq_linspace : List ℚ
  deriving DecidableEq, Repr

/-- `experiments.RRFreqSpec.__init__` (lines 10-35): the same sweep validation
as `rr_freq_spec`, performed before any pulse lookup; on success the
(possibly derived) sweep is stored on the instance. -/
def RRFreqSpec.init (freq_span : Option ℚ) (num_experiments : Option ℕ)
    (freq_linspace : Option (List ℚ)) : Except RunError RRFreqSpecState :=
  let construct_linspace := freq_span.isNone && num_experiments.isNone
  let valid_setting := Bool.xor freq_linspace.isNone construct_linspace
  if !valid_setting then .error .configError
  else
    match construct_linspace, freq_span, num_experiments with
    | false, some sp, some n =>
      .ok { freq_linspace := np_linspace (-(1 / 2) * sp) (1 / 2 * sp) n }
    | false, _, _ => .error .typeError
    | true, _, _ => .ok { freq_linspace := freq_linspace.getD [] }

/-- One Ramsey T2 schedule of `helpers.general_ramsey_t2_experiment`: the
grid-varying quantized delays plus whether a detuning shift is inserted. -/
structure RamseySched where
  delay_dur_dt : ℤ
  detuned : Bool
  ramsey_delay_dur : ℤ
  buffer_duration : ℤ
  deriving DecidableEq, Repr

/-- `helpers.general_ramsey_t2_experiment` (lines 217-282).  The outer loop
runs over the secondary sweep `delay_duration_sec` and appends one INNER LIST
per value to `big_experiments`; the inner loop runs over the primary
`ramsey_t2_linspace` and appends one schedule per value.  Line 247 quantizes
the per-delay duration with the module-default sample period while line 251
uses the backend `dt`.  (With `inp_linspace=None` and `freq_detuning=0`
Python would raise ZeroDivisionError; rational division by zero stands in
here and no claim touches that path.) -/
def general_ramsey_t2_experiment (freq_detuning : ℚ) (num_periods points_per_period : ℕ)
    (buffer_duration : ℚ) (delay_duration_sec : List ℚ) (inp_linspace : Option (List ℚ))
    (dt : ℚ) : List (List RamseySched) × List ℚ :=
  let ramsey_t2_linspace :=
    match inp_linspace with
    | some l => l
    | none =>
      np_linspace 0 ((num_periods : ℚ) / freq_detuning) (num_periods * points_per_period + 1)
  let buf := get_closest_multiple_of_16 buffer_duration
  let big_experiments := delay_duration_sec.foldl
    (fun acc delay_dur_sec =>
      let delay_dur_dt := get_closest_multiple_of_16
        ((get_dt_from delay_dur_sec default_dt : ℤ) : ℚ)
      let inner := ramsey_t2_linspace.foldl
        (fun iacc ramsey_delay_sec =>
          iacc ++ [{ delay_dur_dt := delay_dur_dt
                     detuned := freq_detuning != 0
                     ramsey_delay_dur := get_closest_multiple_of_16
                       ((get_dt_from ramsey_delay_sec dt : ℤ) : ℚ)
                     buffer_duration := buf }])
        []
      acc ++ [inner])
    []
  (big_experiments, ramsey_t2_linspace)

/-- One fully bound AC-Stark schedule: the shared symbolic template with its
two free parameters `freq` and `meas delay` substituted. -/
structure ACStarkBound where
  freq : ℚ
  meas_delay : ℤ
  deriving DecidableEq, Repr

/-- `helpers.general_ac_stark_photon_experiment` (lines 343-356): the two
nested loops append every bound schedule to the ONE flat list `big_exp`
(outer loop over `meas_delay_sec`, inner loop over `freq_linspace`).  Each
measurement delay is quantized with the module-default sample period. -/
def general_ac_stark_photon_experiment (freq_linspace meas_delay_sec : List ℚ) :
    List ACStarkBound :=
  meas_delay_sec.foldl
    (fun big_exp m_delay_sec =>
      let m_delay := get_closest_multiple_of_16
        ((get_dt_from m_delay_sec default_dt : ℤ) : ℚ)
      freq_linspace.foldl
        (fun acc f => acc ++ [{ freq := f, meas_delay := m_delay }]) big_exp)
    []

/-- The measurement pulse stored by `experiments.ACStarkPhoton.__init__`. -/
inductive InitMeasPulse where
  | gaussianSquare (duration : ℤ)
  | gaussian (duration : ℤ)
  deriving DecidableEq, Repr

/-- `supported_modes` of `experiments.ACStarkPhoton.__init__` (line 101). -/
def supported_modes : List String :=
  ["gaussian_square", "gaussian"]

/-- The sweep- and mode-relevant state stored by
`experiments.ACStarkPhoton.__init__`. -/
structure ACStarkPhotonState where
  freq_linspace : List ℚ
  mode : String
  meas_duration : ℤ
  meas_pulse : InitMeasPulse
  deriving DecidableEq, Repr

/-- `experiments.ACStarkPhoton.__init__` (lines 79-130): quantizes the
measurement duration, rejects any mode outside `supported_modes` with a
`ValueError` whose message lists the supported set (modelled by the
`configErrorModes` payload), and otherwise stores the instance state. -/
def ACStarkPhoton.init (freq_linspace : List ℚ) (meas_duration : ℤ) (mode : String) :
    Except RunError ACStarkPhotonState :=
  let md := get_closest_multiple_of_16 (meas_duration : ℚ)
  if !(supported_modes.contains mode) then .error (.configErrorModes supported_modes)
  else
    .ok { freq_linspace := freq_linspace
          mode := mode
          meas_duration := md
          meas_pulse := if mode = "gaussian_square" then .gaussianSquare md else .gaussian md }

/-- `experiments.ACStarkPhoton.get_jobs` (lines 132-178).  The method builds
the parameterized template schedule, then evaluates
`isinstance(meas_delay_sec, float)`.  Because `meas_delay_sec` is assigned
later in the body (lines 166 and 170), Python compiles it as a local variable
of `get_jobs`; it is read here before any assignment (the constructor stored
the value only as `self.meas_delay_sec`), so the read raises
`UnboundLocalError`, a subclass of `NameError`.  The local is modelled as an
option that is still `none` at the read; the unreachable `some` branch records
what the loop would compute if the local were bound. -/
def ACStarkPhoton.get_jobs (s : ACStarkPhotonState) :
    Except RunError (List ACStarkBound) :=
  let meas_delay_sec_local : Option (List ℚ) := none
  match meas_delay_sec_local with
  | none => .error .unboundLocalError
  | some mds =>
    .ok (mds.foldl
      (fun big_exp m_delay_sec =>
        let m_delay := get_closest_multiple_of_16
          ((get_dt_from m_delay_sec default_dt : ℤ) : ℚ)
        s.freq_linspace.foldl
          (fun acc f => acc ++ [{ freq := f, meas_delay := m_delay }]) big_exp)
      [])

/-- The measurement pulse variants handled by
`helpers.improved_ac_stark_photon_experiment`. -/
inductive MeasPulse where
  | gaussianSquare (duration : ℤ)
  | constant (duration : ℤ)
  deriving DecidableEq, Repr

/-- One bound schedule of `helpers.improved_ac_stark_photon_experiment`. -/
structure ImprovedBound where
  meas_pulse : MeasPulse
  freq : ℚ
  meas_delay : ℤ
  deriving DecidableEq, Repr

/-- `helpers.improved_ac_stark_photon_experiment` (lines 359-438).
`meas_pulse` is assigned only when `mode` equals `"gaussian_square"` or
`"rectangular"` (lines 383-394); there is no mode validation, so for any
other mode the name stays unbound and `pulse.play(meas_pulse, ...)` inside
the `pulse.build` block raises `NameError` during sequence construction.  The
bound schedules are appended to the ONE flat list `big_exp`. -/
def improved_ac_stark_photon_experiment (freq_linspace : List ℚ)
    (meas_duration : ℤ) (meas_delay_sec : List ℚ) (mode : String) :
    Except RunError (List ImprovedBound) :=
  let md := get_closest_multiple_of_16 (meas_duration : ℚ)
  let meas_pulse : Option MeasPulse :=
    if mode = "gaussian_square" then some (.gaussianSquare md)
    else if mode = "rectangular" then some (.constant md)
    else none
  match meas_pulse with
  | none => .error .nameError
  | some mp =>
    .ok (meas_delay_sec.foldl
      (fun big_exp m_delay_sec =>
        let m_delay := get_closest_multiple_of_16
          ((get_dt_from m_delay_sec default_dt : ℤ) : ℚ)
        freq_linspace.foldl
          (fun acc f => acc ++ [{ meas_pulse := mp, freq := f, meas_delay := m_delay }])
          big_exp)
      [])

/-! ## Helper lemmas -/

/-- Python `int()` of an integer-valued rational is that integer. -/
theorem pytrunc_intCast (n : ℤ) : pytrunc ((n : ℚ)) = n := by
  unfold pytrunc
  split <;> simp

/-- An imperative `for x in xs: acc += h(x)` loop as a fold: the result is the
starting accumulator followed by `xs.flatMap h`. -/
theorem foldl_append_flatMap {α β : Type} (h : α → List β) :
    ∀ (xs : List α) (acc : List β),
      xs.foldl (fun a x => a ++ h x) acc = acc ++ xs.flatMap h := by
  intro xs
  induction xs with
  | nil => intro acc; simp
  | cons x xs ih => intro acc; simp [ih]

/-- Appending singletons per element is mapping. -/
theorem flatMap_singleton_eq_map {α β : Type} (f : α → β) (xs : List α) :
    (xs.flatMap fun x => [f x]) = xs.map f := by
  induction xs with
  | nil => rfl
  | cons x xs ih => simp [ih]

/-- An imperative `for x in xs: acc.append(f x)` loop as a fold. -/
theorem foldl_append_map {α β : Type} (f : α → β) (xs : List α) (acc : List β) :
    xs.foldl (fun a x => a ++ [f x]) acc = acc ++ xs.map f := by
  rw [foldl_append_flatMap (fun x => [f x]) xs acc, flatMap_singleton_eq_map]

/-! ## Claims C1 and C2: quantization -/

/-- C1 counterexample: the claim asserts `quantize16(8) == 0` and
`quantize16(24) == 16` (exact halves rounding DOWN).  The source computes
`int(8 + 8) - (16 % 16) = 16` and `int(24 + 8) - (32 % 16) = 32`: exact
halfway values round UP to the higher multiple. -/
theorem quantize16_tie_counterexample :
    get_closest_multiple_of_16 8 = 16 ∧ get_closest_multiple_of_16 8 ≠ 0 ∧
    get_closest_multiple_of_16 24 = 32 ∧ get_closest_multiple_of_16 24 ≠ 16 := by
  norm_num [get_closest_multiple_of_16, get_closest_multiple_of, pytrunc]

/-- C1 (amended): `get_closest_multiple_of` rounds exact halfway values UP to
the higher multiple of the granularity: `quantize16(8) = 16`,
`quantize16(24) = 32`, and in general `quantize16(16*k + 8) = 16*(k + 1)`. -/
theorem quantize16_tie_rounds_up :
    get_closest_multiple_of_16 8 = 16 ∧ get_closest_multiple_of_16 24 = 32 ∧
    ∀ k : ℕ, get_closest_multiple_of_16 (16 * (k : ℚ) + 8) = 16 * (k : ℤ) + 16 := by
  refine ⟨?_, ?_, ?_⟩
  · norm_num [get_closest_multiple_of_16, get_closest_multiple_of, pytrunc]
  · norm_num [get_closest_multiple_of_16, get_closest_multiple_of, pytrunc]
  intro k
  unfold get_closest_multiple_of_16 get_closest_multiple_of
  have h1 : 16 * (k : ℚ) + 8 + ((16 : ℤ) : ℚ) / 2 = ((16 * (k : ℤ) + 16 : ℤ) : ℚ) := by
    push_cast
    ring
  rw [h1, pytrunc_intCast]
  omega

/-- C2: for every non-negative `v`, `get_closest_multiple_of_16 v` is
divisible by 16 and differs from `v` by at most 8 (nearest-grid property). -/
theorem quantize16_nearest_grid (v : ℚ) (h : 0 ≤ v) :
    get_closest_multiple_of_16 v % 16 = 0 ∧
    |((get_closest_multiple_of_16 v : ℤ) : ℚ) - v| ≤ 8 := by
  have hb : ((16 : ℤ) : ℚ) / 2 = 8 := by norm_num
  unfold get_closest_multiple_of_16 get_closest_multiple_of pytrunc
  rw [hb]
  have h0 : (0 : ℚ) ≤ v + 8 := by linarith
  rw [if_pos h0]
  constructor
  · omega
  · have hle : ((⌊v + 8⌋ : ℤ) : ℚ) ≤ v + 8 := Int.floor_le (v + 8)
    have hlt : v + 8 < ((⌊v + 8⌋ : ℤ) : ℚ) + 1 := Int.lt_floor_add_one (v + 8)
    have e1 : (0 : ℤ) ≤ ⌊v + 8⌋ % 16 := Int.emod_nonneg _ (by norm_num)
    have e2 : ⌊v + 8⌋ % 16 ≤ 15 := by
      have := Int.emod_lt_of_pos ⌊v + 8⌋ (show (0 : ℤ) < 16 by norm_num)
      omega
    have e1q : (0 : ℚ) ≤ ((⌊v + 8⌋ % 16 : ℤ) : ℚ) := by exact_mod_cast e1
    have e2q : ((⌊v + 8⌋ % 16 : ℤ) : ℚ) ≤ 15 := by exact_mod_cast e2
    rw [abs_le]
    constructor
    · push_cast
      linarith
    · push_cast
      linarith

/-- C2 witness: the nearest-grid property at the concrete input 3. -/
theorem quantize16_nearest_grid_witness :
    (0 : ℚ) ≤ 3 ∧ (get_closest_multiple_of_16 3 % 16 = 0 ∧
      |((get_closest_multiple_of_16 3 : ℤ) : ℚ) - 3| ≤ 8) :=
  ⟨by norm_num, quantize16_nearest_grid 3 (by norm_num)⟩

/-! ## Claims C3, C4, C5: the sequence validator -/

/-- C3 (code bug): the claim — and the checker's own error messages, which
say "Delay or Play Instruction" — require every delay duration to be checked,
but helpers.py line 31 collects only `pulse.Play` durations.  A schedule
whose delay lasts 8 samples (not a positive multiple of 16) passes the
checker silently. -/
theorem acquisition_checker_skips_delay :
    acquisition_checker [[Op.delay 8, Op.acquire 16]] = none ∧
    playDurations [[Op.delay 8, Op.acquire 16]] = [] := by
  exact ⟨rfl, rfl⟩

/-- C4 (code bug): the claim — and the checker's own error message, "less/more
than one acquisition instructions per circuit" — require exactly one
acquisition per sequence, but helpers.py line 45 only compares the TOTAL
number of acquisitions with the number of sequences.  A batch whose first
sequence has two acquisitions and whose second has none passes silently. -/
theorem acquisition_checker_counts_in_aggregate :
    acquisition_checker [[Op.acquire 16, Op.acquire 16], [Op.play 16]] = none ∧
    acqDurations [[Op.acquire 16, Op.acquire 16], [Op.play 16]] = [16, 16] := by
  exact ⟨rfl, rfl⟩

/-- C5: when the play durations are positive multiples of 16 and the
acquisition count matches the batch size, the checker raises one of the two
acquisition-duration errors (helpers.py lines 50-56, the spec's
`InconsistentAcquisitionError` kind) exactly when the acquisition durations
are not all identical or the shared duration is not a multiple of 16.
A batch with acquisition durations `[512, 512, 528]` fails with the
"not identical" error; a batch whose acquisitions are all 512 and whose play
durations are positive multiples of 16 passes. -/
theorem acquisition_checker_acquisition_consistency :
    (∀ (job : List Schedule) (d0 : ℕ) (rest : List ℕ),
      ((playDurations job).all fun d => d % 16 == 0) = true →
      ((playDurations job).all fun d => d != 0) = true →
      acqDurations job = d0 :: rest →
      job.length = rest.length + 1 →
      ((acquisition_checker job = some CheckError.acqNotIdentical ∨
        acquisition_checker job = some CheckError.acqNotMult16) ↔
        ¬ ((((d0 :: rest).all fun d => d == d0) = true) ∧ d0 % 16 = 0))) ∧
    acquisition_checker [[Op.acquire 512], [Op.acquire 512], [Op.acquire 528]] =
      some CheckError.acqNotIdentical ∧
    acquisition_checker [[Op.play 512, Op.acquire 512], [Op.play 16, Op.acquire 512]] =
      none := by
  refine ⟨?_, rfl, rfl⟩
  intro job d0 rest h1 h2 hacq hlen
  simp only [acquisition_checker, hacq, h1, h2, Bool.not_true, List.length_cons, hlen,
    ne_eq, Bool.false_eq_true, if_false, not_true_eq_false, ite_false]
  by_cases hall : ((d0 :: rest).all fun d => d == d0) = true
  · by_cases hmod : d0 % 16 = 0
    · simp [hall, hmod]
    · simp [hall, hmod]
  · rw [Bool.not_eq_true] at hall
    simp [hall]

/-- C5 witness: the acquisition-consistency characterization applied to a
concrete two-schedule batch with differing acquisition durations. -/
theorem acquisition_checker_acquisition_consistency_witness :
    acquisition_checker [[Op.acquire 512], [Op.acquire 528]] =
      some CheckError.acqNotIdentical ∨
    acquisition_checker [[Op.acquire 512], [Op.acquire 528]] =
      some CheckError.acqNotMult16 :=
  (acquisition_checker_acquisition_consistency.1 [[Op.acquire 512], [Op.acquire 528]]
    512 [528] (by decide) (by decide) (by decide) (by decide)).mpr (by decide)

/-! ## Claims C6 and C7: frequency-spectroscopy sweep handling -/

/-- C6: supplying both an explicit sweep and a `(span, count)` pair, or
supplying neither, makes `rr_freq_spec` and `RRFreqSpec.__init__` raise the
mutually-exclusive-arguments `ValueError`; the error return carries no
sequences, so nothing is built. -/
theorem freq_spec_sweep_exclusivity :
    (∀ (sp : ℚ) (n : ℕ) (l : List ℚ),
      rr_freq_spec (some sp) (some n) (some l) = .error .configError ∧
      RRFreqSpec.init (some sp) (some n) (some l) = .error .configError) ∧
    rr_freq_spec none none none = .error .configError ∧
    RRFreqSpec.init none none none = .error .configError :=
  ⟨fun _ _ _ => ⟨rfl, rfl⟩, rfl, rfl⟩

/-- Unfolding the sweep loop of `rr_freq_spec` over a sweep with at least two
points: every iteration rebuilds the same `details`, and the loop returns the
two schedule lists in sweep order. -/
theorem rr_freq_spec_go_ok (a b : ℚ) (t : List ℚ) :
    ∀ (todo : List ℚ) (g e : List FreqSched) (d : Option FreqSpecDetails),
      todo ≠ [] →
      rr_freq_spec_go (a :: b :: t) todo g e d =
        .ok (g ++ todo.map FreqSched.specG, e ++ todo.map FreqSched.specE,
          { total_experiment_size := g.length + todo.length + (e.length + todo.length)
            freq_step_size_MHz := pyround3 ((b - a) / 1000000)
            freq_span_MHz := pyround3 (((a :: b :: t).getLastD 0 - a) / 1000000) }) := by
  intro todo
  induction todo with
  | nil => intro g e d h; exact absurd rfl h
  | cons f rest ih =>
    intro g e d _
    cases rest with
    | nil =>
      simp [rr_freq_spec_go, rr_details]
    | cons f2 rest2 =>
      rw [show rr_freq_spec_go (a :: b :: t) (f :: f2 :: rest2) g e d =
            rr_freq_spec_go (a :: b :: t) (f2 :: rest2) (g ++ [FreqSched.specG f])
              (e ++ [FreqSched.specE f])
              (some { total_experiment_size :=
                        (g ++ [FreqSched.specG f]).length + (e ++ [FreqSched.specE f]).length
                      freq_step_size_MHz := pyround3 ((b - a) / 1000000)
                      freq_span_MHz :=
                        pyround3 (((a :: b :: t).getLastD 0 - a) / 1000000) }) from rfl,
        ih (g ++ [FreqSched.specG f]) (e ++ [FreqSched.specE f]) _ (by simp)]
      simp [List.append_assoc]
      omega

/-- C7 counterexample: invoked with an explicit sweep of length 1, the claim
requires two lists of length 1, but the builder raises `IndexError`: the
`details` dictionary is computed inside the loop and indexes
`freq_linspace[1]`, which does not exist.  (An empty sweep likewise raises
`NameError`, since `details` is never bound.) -/
theorem rr_freq_spec_singleton_counterexample :
    rr_freq_spec none none (some [5000000]) = .error .indexError ∧
    rr_freq_spec none none (some []) = .error .nameError :=
  ⟨rfl, rfl⟩

/-- C7 (amended): with an explicit sweep of length `N ≥ 2`, `rr_freq_spec`
returns two lists (ground and excited) of exactly length `N` in sweep order;
with `(freq_span = 10e6, num_experiments = 5)` the derived sweep is the five
evenly spaced values from `-5e6` to `+5e6` inclusive and the reported step
size is `(sweep[1] - sweep[0]) / 1e6` MHz (rounded to three decimals).
Sweeps of length 0 or 1 instead raise, as shown by the counterexample. -/
theorem rr_freq_spec_shape_amended :
    (∀ (a b : ℚ) (t : List ℚ),
      rr_freq_spec none none (some (a :: b :: t)) =
        .ok ((a :: b :: t).map FreqSched.specG, (a :: b :: t).map FreqSched.specE,
          { total_experiment_size := (a :: b :: t).length + (a :: b :: t).length
            freq_step_size_MHz := pyround3 ((b - a) / 1000000)
            freq_span_MHz := pyround3 (((a :: b :: t).getLastD 0 - a) / 1000000) })) ∧
    rr_freq_spec (some 10000000) (some 5) none =
      .ok ([FreqSched.specG (-5000000), FreqSched.specG (-2500000), FreqSched.specG 0,
            FreqSched.specG 2500000, FreqSched.specG 5000000],
           [FreqSched.specE (-5000000), FreqSched.specE (-2500000), FreqSched.specE 0,
            FreqSched.specE 2500000, FreqSched.specE 5000000],
           { total_experiment_size := 10
             freq_step_size_MHz := 5 / 2
             freq_span_MHz := 10 }) := by
  constructor
  · intro a b t
    rw [show rr_freq_spec none none (some (a :: b :: t)) =
          rr_freq_spec_go (a :: b :: t) (a :: b :: t) [] [] none from rfl,
      rr_freq_spec_go_ok a b t (a :: b :: t) [] [] none (by simp)]
    simp
  · rw [show rr_freq_spec (some 10000000) (some 5) none =
          rr_freq_spec_go (np_linspace (-(1 / 2) * 10000000) (1 / 2 * 10000000) 5)
            (np_linspace (-(1 / 2) * 10000000) (1 / 2 * 10000000) 5) [] [] none from rfl]
    have hlin : np_linspace (-(1 / 2) * 10000000) (1 / 2 * 10000000) 5 =
        [-5000000, -2500000, 0, 2500000, 5000000] := by
      norm_num [np_linspace, List.range_succ]
    rw [hlin, rr_freq_spec_go_ok (-5000000) (-2500000)
      [0, 2500000, 5000000] _ [] [] none (by simp)]
    norm_num [pyround3]

/-! ## Claims C8, C9, C10: AC-Stark builders -/

/-- C8 counterexample: `improved_ac_stark_photon_experiment` called with the
unsupported mode "foo" does not raise a configuration error listing the
supported modes; it raises `NameError` in the middle of sequence construction
(`meas_pulse` is never assigned and `pulse.play(meas_pulse, ...)` reads it),
so the claimed fail-fast validation does not exist for this builder. -/
theorem improved_mode_counterexample :
    improved_ac_stark_photon_experiment [0] 16 [0] "foo" = .error .nameError ∧
    RunError.nameError ≠ RunError.configErrorModes supported_modes :=
  ⟨rfl, by simp⟩

/-- C8 (amended): `ACStarkPhoton.__init__` raises an immediate `ValueError`
listing the supported modes exactly when the mode is outside
`supported_modes` (and builds no state); `improved_ac_stark_photon_experiment`
performs no mode validation at all — any mode other than "gaussian_square" or
"rectangular" surfaces as a `NameError` during sequence construction. -/
theorem mode_validation_amended :
    (∀ (fl : List ℚ) (md : ℤ) (mode : String),
      ACStarkPhoton.init fl md mode = .error (.configErrorModes supported_modes) ↔
      supported_modes.contains mode = false) ∧
    (∀ (fl : List ℚ) (md : ℤ) (mds : List ℚ) (mode : String),
      mode ≠ "gaussian_square" → mode ≠ "rectangular" →
      improved_ac_stark_photon_experiment fl md mds mode = .error .nameError) := by
  constructor
  · intro fl md mode
    by_cases h : supported_modes.contains mode
    · simp [ACStarkPhoton.init, h]
    · rw [Bool.not_eq_true] at h
      simp [ACStarkPhoton.init, h]
  · intro fl md mds mode h1 h2
    simp [improved_ac_stark_photon_experiment, h1, h2]

/-- C8 witness: the amended mode-validation behavior at the concrete
unsupported mode "triangle". -/
theorem mode_validation_amended_witness :
    ACStarkPhoton.init [] 0 "triangle" = .error (.configErrorModes supported_modes) ∧
    improved_ac_stark_photon_experiment [] 0 [] "triangle" = .error .nameError :=
  ⟨(mode_validation_amended.1 [] 0 "triangle").mpr (by decide),
   mode_validation_amended.2 [] 0 [] "triangle" (by decide) (by decide)⟩

/-- C9 counterexample: `general_ac_stark_photon_experiment` with the two
secondary delay values `[0 s, 1e-6 s]` and the two primary frequencies
`[1, 2]` returns ONE flat list of four bound schedules ordered
secondary-major, not a list of lists; in particular its outer length is 4,
not the number of secondary sweep values (2) that the claimed nesting
requires. -/
theorem ac_stark_flat_counterexample :
    general_ac_stark_photon_experiment [1, 2] [0, 1 / 1000000] =
      [{ freq := 1, meas_delay := 0 }, { freq := 2, meas_delay := 0 },
       { freq := 1, meas_delay := 4496 }, { freq := 2, meas_delay := 4496 }] ∧
    (general_ac_stark_photon_experiment [1, 2] [0, 1 / 1000000]).length ≠ 2 := by
  have h : general_ac_stark_photon_experiment [1, 2] [0, 1 / 1000000] =
      [{ freq := 1, meas_delay := 0 }, { freq := 2, meas_delay := 0 },
       { freq := 1, meas_delay := 4496 }, { freq := 2, meas_delay := 4496 }] := by
    norm_num [general_ac_stark_photon_experiment, List.foldl_cons, List.foldl_nil,
      get_closest_multiple_of_16, get_dt_from, get_closest_multiple_of, pytrunc, default_dt]
  refine ⟨h, ?_⟩
  rw [h]
  simp

/-- C9 (amended): only the Ramsey T2 builder returns a list of lists, with the
outer index running over the secondary `delay_duration_sec` sweep in input
order and each inner list holding one schedule per primary sweep value; the
AC-Stark builder `general_ac_stark_photon_experiment` returns a single flat
list ordered secondary-major, and `ACStarkPhoton.get_jobs` raises
`UnboundLocalError` before returning any sequences at all. -/
theorem secondary_sweep_shape_amended :
    (∀ (fd : ℚ) (nper pper : ℕ) (buf : ℚ) (ds lin : List ℚ) (dt : ℚ),
      general_ramsey_t2_experiment fd nper pper buf ds (some lin) dt =
        (ds.map fun dsec =>
          lin.map fun rsec =>
            { delay_dur_dt := get_closest_multiple_of_16 ((get_dt_from dsec default_dt : ℤ) : ℚ)
              detuned := fd != 0
              ramsey_delay_dur := get_closest_multiple_of_16 ((get_dt_from rsec dt : ℤ) : ℚ)
              buffer_duration := get_closest_multiple_of_16 buf }, lin)) ∧
    (∀ (fl mds : List ℚ),
      general_ac_stark_photon_experiment fl mds =
        mds.flatMap fun m => fl.map fun f =>
          { freq := f
            meas_delay := get_closest_multiple_of_16 ((get_dt_from m default_dt : ℤ) : ℚ) }) ∧
    (∀ s : ACStarkPhotonState, ACStarkPhoton.get_jobs s = .error .unboundLocalError) := by
  refine ⟨?_, ?_, fun s => rfl⟩
  · intro fd nper pper buf ds lin dt
    simp [general_ramsey_t2_experiment, foldl_append_map]
  · intro fl mds
    simp [general_ac_stark_photon_experiment, foldl_append_map, foldl_append_flatMap]

/-- C10: for every instance state, `ACStarkPhoton.get_jobs` raises
`UnboundLocalError` (a subclass of `NameError`) before returning any
sequences: the method reads the name `meas_delay_sec`, which is a local of
the method (it is assigned further down the body) and is unbound at the read;
the constructor stored the value only as `self.meas_delay_sec`. -/
theorem get_jobs_unbound_local (s : ACStarkPhotonState) :
    ACStarkPhoton.get_jobs s = .error .unboundLocalError ∧
    ∀ jobs : List ACStarkBound, ACStarkPhoton.get_jobs s ≠ .ok jobs := by
  refine ⟨rfl, fun jobs h => ?_⟩
  rw [show ACStarkPhoton.get_jobs s = .error .unboundLocalError from rfl] at h
  exact Except.noConfusion h

/-- C10 witness: the unbound-local failure at a concrete instance state. -/
theorem get_jobs_unbound_local_witness :
    ACStarkPhoton.get_jobs
        { freq_linspace := [1], mode := "gaussian_square", meas_duration := 512,
          meas_pulse := InitMeasPulse.gaussianSquare 512 } =
      .error .unboundLocalError ∧
    ACStarkPhoton.get_jobs
        { freq_linspace := [1], mode := "gaussian_square", meas_duration := 512,
          meas_pulse := InitMeasPulse.gaussianSquare 512 } ≠ .ok [] :=
  ⟨(get_jobs_unbound_local _).1, (get_jobs_unbound_local _).2 []⟩
